import Mathlib

/-!
Shallow embedding of `src/index.js` from joelgrus/todo-cycle-js.

The program keeps an immutable `State` record `{ todos : List<Todo>, todoFilter }`
(Immutable.js `Record`/`List`) and folds pure transformations over it:
`addTodo`, `removeTodo`, `todoCompleted`, `changeFilter`, `clearCompleted`.
The view layer (`todoFilter`, `renderTodo`, `renderTodos`) projects the state to
a declarative tree; here we model the data-carrying part of each rendered todo
item (its text, checkbox state, and the `data-todo-id` attributes).

Index payloads (`ev.target['data-todo-id']`) are JavaScript values: a number, or
`undefined` when the property is absent.  We model them as `Option Int`
(`none` = non-numeric/`undefined`).  Immutable.js `List` index semantics, which
the transformations go through, are modelled faithfully:
  * `wrapIndex`: a negative index is taken from the end (`size + i`);
    a non-numeric key wraps to `NaN`, which `has` rejects;
  * `List.delete`/`remove(i)` checks `has(i)` first and returns the list
    unchanged when it fails, else removes the element at the wrapped index;
  * `List.update(i, updater)` (via `updateIn`) fetches `get(i, NOT_SET)`; when
    the index is absent the updater is invoked on `undefined`, and the updater
    used by `todoCompleted` — `todo => todo.update('completed', x => !x)` —
    then throws a `TypeError`.  We model a throwing transformation as
    `Except Unit`.
-/

/-- A todo is simply some text and a completed flag (`Record({text, completed})`). -/
structure Todo where
  text : String
  completed : Bool
deriving DecidableEq, Repr

/-- The FILTER "enum": `FILTER.ALL = "all"`. -/
def FILTER_ALL : String := "all"

/-- The FILTER "enum": `FILTER.COMPLETED = "completed"`. -/
def FILTER_COMPLETED : String := "completed"

/-- The FILTER "enum": `FILTER.UNCOMPLETED = "uncompleted"`. -/
def FILTER_UNCOMPLETED : String := "uncompleted"

/-- `State = Record({ todos: List(), todoFilter: FILTER.ALL })`.  The filter is
stored as the raw string the action carried (unrecognized values included). -/
structure AppState where
  todos : List Todo
  todoFilter : String
deriving DecidableEq, Repr

/-- The starting state `new State()`: empty todos, filter `"all"`. -/
def initialState : AppState := { todos := [], todoFilter := FILTER_ALL }

/-- Immutable.js `wrapIndex` for a numeric index: negative indices are taken
from the end of the list. -/
def wrapIndex (size : Nat) (i : Int) : Int :=
  if i < 0 then (size : Int) + i else i

/-- Immutable.js `List.has(id)` on the todos list: `false` for a non-numeric
key (`wrapIndex` yields `NaN`), else the wrapped index must fall inside
`[0, size)`. -/
def listHas (l : List Todo) (id : Option Int) : Bool :=
  match id with
  | none => false
  | some i =>
    decide (0 ≤ wrapIndex l.length i) && decide (wrapIndex l.length i < (l.length : Int))

/-- The `addTodo` transformation: `state.updateIn(['todos'], todos =>
todos.unshift(new Todo({text})))` — prepend `{text, completed:false}`. -/
def addTodo (text : String) (state : AppState) : AppState :=
  { state with todos := { text := text, completed := false } :: state.todos }

/-- The `removeTodo` transformation: `state.updateIn(['todos'], todos =>
todos.delete(todoId))`.  `List.delete` is `remove`, which returns the list
unchanged unless `has(todoId)`, and otherwise removes the element at the
wrapped index. -/
def removeTodo (todoId : Option Int) (state : AppState) : AppState :=
  match todoId with
  | none => state
  | some i =>
    if 0 ≤ wrapIndex state.todos.length i ∧
        wrapIndex state.todos.length i < (state.todos.length : Int) then
      { state with todos := state.todos.eraseIdx (wrapIndex state.todos.length i).toNat }
    else state

/-- The `todoCompleted` transformation: `state.updateIn(['todos'], todos =>
todos.update(todoId, todo => todo.update('completed', x => !x)))`.
When `todoId` is absent from the list, `List.update` invokes the updater on
`undefined` and `undefined.update('completed', ...)` throws a `TypeError`
(modelled as `Except.error ()`); otherwise the todo at the wrapped index gets
its `completed` flag flipped via `set`. -/
def todoCompleted (todoId : Option Int) (state : AppState) : Except Unit AppState :=
  match todoId with
  | none => Except.error ()
  | some i =>
    if 0 ≤ wrapIndex state.todos.length i then
      match state.todos[(wrapIndex state.todos.length i).toNat]? with
      | some todo =>
        Except.ok { state with
          todos := state.todos.set (wrapIndex state.todos.length i).toNat
            { todo with completed := !todo.completed } }
      | none => Except.error ()
    else Except.error ()

/-- The `changeFilter` transformation: `state.set('todoFilter', todoFilter)` —
the payload string is stored unconditionally. -/
def changeFilter (todoFilterValue : String) (state : AppState) : AppState :=
  { state with todoFilter := todoFilterValue }

/-- The `clearCompleted` transformation: `state.updateIn(['todos'], todos =>
todos.filter(todo => !todo.get('completed')))`. -/
def clearCompleted (state : AppState) : AppState :=
  { state with todos := state.todos.filter (fun todo => !todo.completed) }

/-- `todoFilter(filterType)`: the predicate used to filter todos for rendering.
`ALL` passes everything, `COMPLETED`/`UNCOMPLETED` test the flag, and any other
filter value hits the `default: return false` branch. -/
def todoFilter (filterType : String) (todo : Todo) : Bool :=
  if filterType = FILTER_ALL then true
  else if filterType = FILTER_COMPLETED then todo.completed
  else if filterType = FILTER_UNCOMPLETED then !todo.completed
  else false

/-- The data carried by one rendered todo item: the displayed text, the
checkbox `checked` property, and the `data-todo-id` attributes placed on the
`.todo-completed` checkbox and the `.remove-todo` span. -/
structure RenderedTodo where
  text : String
  checkboxChecked : Bool
  checkboxTodoId : Nat
  removeTodoId : Nat
deriving DecidableEq, Repr

/-- `renderTodo(idx, todo)`: the todo's text, a checkbox reflecting
`completed` carrying `data-todo-id = idx`, and a remove control carrying the
same `data-todo-id = idx`. -/
def renderTodo (idx : Nat) (todo : Todo) : RenderedTodo :=
  { text := todo.text
    checkboxChecked := todo.completed
    checkboxTodoId := idx
    removeTodoId := idx }

/-- `renderTodos(todos, activeFilter)`: `todos.filter(todoFilter(activeFilter))
.entrySeq().map(([idx, todo]) => renderTodo(idx, todo))`.  Immutable.js
`List.filter` returns a re-indexed `List`, so `entrySeq()` pairs each surviving
todo with its position in the *filtered* list; `List.enum` models exactly
that. -/
def renderTodos (todos : List Todo) (activeFilter : String) : List RenderedTodo :=
  ((todos.filter (todoFilter activeFilter)).enum).map
    (fun p => renderTodo p.1 p.2)

/-- Folding a sequence of `addTodo` transformations over a state, in arrival
order, as the reducer's `merge`/`scan` does for a stream of AddTodo actions. -/
def applyAddTodos (texts : List String) (state : AppState) : AppState :=
  texts.foldl (fun s t => addTodo t s) state

/-- A concrete two-element state used to instantiate universally quantified
theorems: one uncompleted todo "a" followed by one completed todo "b". -/
def sampleState : AppState :=
  { todos := [{ text := "a", completed := false }, { text := "b", completed := true }]
    todoFilter := "all" }

/-! Helper lemmas about `List` used by several claims. -/

/-- Filtering a list with a predicate that is everywhere false yields `[]`. -/
theorem filter_false_eq_nil {α : Type} (p : α → Bool) (h : ∀ a, p a = false)
    (l : List α) : l.filter p = [] := by
  induction l with
  | nil => rfl
  | cons a l ih => simp [List.filter_cons, h a, ih]

/-- Writing back the element already stored at an index leaves the list
unchanged. -/
theorem set_self_of_getElem {α : Type} {l : List α} {n : Nat} {a : α}
    (h : l[n]? = some a) : l.set n a = l := by
  induction l generalizing n with
  | nil => simp at h
  | cons x xs ih =>
    cases n with
    | zero =>
      simp at h
      simp [h]
    | succ m =>
      simp at h
      simp [List.set_cons_succ, ih h]

/-- Claim C4: `addTodo text` prepends `{text, completed := false}` to the
todos list, keeping the previous todos in order (shifted by one) and the
active filter unchanged; consequently, after any sequence of AddTodo actions
applied to the initial state, the most recently added todo sits at index 0. -/
theorem addTodo_prepends_lifo :
    (∀ (state : AppState) (text : String),
      (addTodo text state).todos = { text := text, completed := false } :: state.todos ∧
      (addTodo text state).todoFilter = state.todoFilter) ∧
    (∀ (texts : List String) (text : String),
      (applyAddTodos (texts ++ [text]) initialState).todos[0]? =
        some { text := text, completed := false }) := by
  constructor
  · intro state text
    exact ⟨rfl, rfl⟩
  · intro texts text
    simp [applyAddTodos, List.foldl_append, addTodo]

/-- Claim C5: `clearCompleted` keeps exactly the todos whose `completed` flag
is false, in their original relative order (a sublist of the input containing
all of its uncompleted todos), and leaves the active filter unchanged. -/
theorem clearCompleted_keeps_uncompleted :
    ∀ state : AppState,
      (clearCompleted state).todos.Sublist state.todos ∧
      (∀ todo ∈ (clearCompleted state).todos, todo.completed = false) ∧
      (clearCompleted state).todos.length = state.todos.countP (fun todo => !todo.completed) ∧
      (clearCompleted state).todoFilter = state.todoFilter := by
  intro state
  refine ⟨List.filter_sublist _, ?_, ?_, rfl⟩
  · intro todo h
    have hmem := List.of_mem_filter h
    simpa using hmem
  · simp [clearCompleted, List.countP_eq_length_filter]

/-- Claim C6: `changeFilter f` stores `f` as the active filter exactly as
given (any string, recognized or not) and leaves the todos unchanged. -/
theorem changeFilter_passes_through :
    ∀ (state : AppState) (f : String),
      (changeFilter f state).todoFilter = f ∧ (changeFilter f state).todos = state.todos :=
  fun _ _ => ⟨rfl, rfl⟩

/-- Claim C8: `clearCompleted` is idempotent. -/
theorem clearCompleted_idempotent :
    ∀ state : AppState, clearCompleted (clearCompleted state) = clearCompleted state := by
  intro state
  simp [clearCompleted, List.filter_filter]

/-- Claim C3: `removeTodo` with an id the todos list does not hold (per the
`has` check `List.delete` performs: a non-numeric payload, or a numeric index
whose wrapped value falls outside the list) leaves the state unchanged; in
particular, when a second `removeTodo` with the same id finds the id out of
bounds after the first removal, the second application is a no-op. -/
theorem removeTodo_out_of_bounds_noop :
    (∀ (state : AppState) (todoId : Option Int),
      listHas state.todos todoId = false → removeTodo todoId state = state) ∧
    (∀ (state : AppState) (i : Int),
      listHas (removeTodo (some i) state).todos (some i) = false →
        removeTodo (some i) (removeTodo (some i) state) = removeTodo (some i) state) := by
  have hmain : ∀ (state : AppState) (todoId : Option Int),
      listHas state.todos todoId = false → removeTodo todoId state = state := by
    intro state todoId h
    match todoId with
    | none => rfl
    | some i =>
      have h2 : ¬(0 ≤ wrapIndex state.todos.length i ∧
          wrapIndex state.todos.length i < (state.todos.length : Int)) := by
        intro hc
        simp [listHas, hc.1, hc.2] at h
      simp [removeTodo, h2]
  exact ⟨hmain, fun state i h => hmain _ _ h⟩

/-- Witness for C3 at concrete inputs: with a single-element list, id 5 is out
of bounds and removing it changes nothing, and removing id 0 twice equals
removing it once (the second application finds id 0 out of bounds). -/
theorem removeTodo_out_of_bounds_noop_witness :
    removeTodo (some 5) { todos := [{ text := "a", completed := false }], todoFilter := "all" }
      = { todos := [{ text := "a", completed := false }], todoFilter := "all" } ∧
    removeTodo (some 0) (removeTodo (some 0)
        { todos := [{ text := "a", completed := false }], todoFilter := "all" })
      = removeTodo (some 0)
        { todos := [{ text := "a", completed := false }], todoFilter := "all" } :=
  ⟨removeTodo_out_of_bounds_noop.1 _ _ (by decide),
   removeTodo_out_of_bounds_noop.2 _ 0 (by decide)⟩

/-- Claim C9: a filter value outside the three recognized strings makes the
`todoFilter` predicate reject every todo, so `renderTodos` renders nothing. -/
theorem unrecognized_filter_renders_empty :
    ∀ f : String, f ≠ FILTER_ALL → f ≠ FILTER_COMPLETED → f ≠ FILTER_UNCOMPLETED →
      (∀ todo : Todo, todoFilter f todo = false) ∧
      (∀ todos : List Todo, renderTodos todos f = []) := by
  intro f h1 h2 h3
  have hp : ∀ todo : Todo, todoFilter f todo = false := by
    intro todo
    simp [todoFilter, h1, h2, h3]
  refine ⟨hp, ?_⟩
  intro todos
  simp [renderTodos, filter_false_eq_nil _ hp]

/-- Witness for C9 at the concrete filter value "bogus". -/
theorem unrecognized_filter_renders_empty_witness :
    todoFilter "bogus" { text := "t", completed := false } = false ∧
    renderTodos [{ text := "t", completed := false },
                 { text := "u", completed := true }] "bogus" = [] :=
  ⟨(unrecognized_filter_renders_empty "bogus" (by decide) (by decide) (by decide)).1 _,
   (unrecognized_filter_renders_empty "bogus" (by decide) (by decide) (by decide)).2 _⟩

/-- Claim C2, counterexample: on the initial state (empty todos) the
out-of-bounds id 0 does not make `todoCompleted` a silent no-op — the
transformation throws (`List.update` hands `undefined` to the updater, which
dereferences it), modelled as `Except.error ()`. -/
theorem toggle_out_of_bounds_not_noop :
    todoCompleted (some 0) initialState = Except.error () ∧
    todoCompleted (some 0) initialState ≠ Except.ok initialState := by
  refine ⟨rfl, ?_⟩
  intro h
  rw [show todoCompleted (some 0) initialState = Except.error () from rfl] at h
  exact Except.noConfusion h

/-- Claim C2 as amended: for every id the todos list does not hold (including
non-numeric payloads), `todoCompleted` throws a `TypeError` instead of
returning the state unchanged. -/
theorem toggle_out_of_bounds_throws :
    ∀ (state : AppState) (todoId : Option Int),
      listHas state.todos todoId = false → todoCompleted todoId state = Except.error () := by
  intro state todoId h
  match todoId with
  | none => rfl
  | some i =>
    by_cases hw : 0 ≤ wrapIndex state.todos.length i
    · have hlen : ¬(wrapIndex state.todos.length i < (state.todos.length : Int)) := by
        intro hc
        simp [listHas, hw, hc] at h
      have hget : state.todos[(wrapIndex state.todos.length i).toNat]? = none := by
        apply List.getElem?_eq_none
        omega
      simp [todoCompleted, hw, hget]
    · simp [todoCompleted, hw]

/-- Witness for the amended C2 at concrete inputs: id 3 is absent from a
one-element list and toggling it throws. -/
theorem toggle_out_of_bounds_throws_witness :
    listHas ({ todos := [{ text := "a", completed := false }], todoFilter := "all" }
        : AppState).todos (some 3) = false ∧
    todoCompleted (some 3)
        { todos := [{ text := "a", completed := false }], todoFilter := "all" }
      = Except.error () :=
  ⟨by decide, toggle_out_of_bounds_throws _ (some 3) (by decide)⟩

/-- Claim C1, evaluated at the failing input: with todos `[a(uncompleted),
b(completed)]` and the COMPLETED filter active, the only visible todo is `b`,
whose unfiltered positional index is 1 — yet both of its rendered identity
tokens (`data-todo-id` on the checkbox and on the delete control) are 0, its
position in the filtered view, because Immutable's `List.filter` re-indexes
before `entrySeq()`. -/
theorem render_embeds_filtered_index :
    renderTodos [{ text := "a", completed := false }, { text := "b", completed := true }]
        FILTER_COMPLETED =
      [{ text := "b", checkboxChecked := true, checkboxTodoId := 0, removeTodoId := 0 }] := by
  rfl

/-- Claim C7: for an in-bounds index, toggling the same todo's completion flag
twice in succession returns the state to its original value (both
applications succeed and the composite is the identity). -/
theorem toggle_twice_identity :
    ∀ (state : AppState) (n : Nat), n < state.todos.length →
      (todoCompleted (some (n : Int)) state).bind (todoCompleted (some (n : Int)))
        = Except.ok state := by
  intro state n hn
  have hw : ∀ m : Nat, wrapIndex m (n : Int) = (n : Int) := by
    intro m
    simp [wrapIndex]
  have hget : state.todos[n]? = some (state.todos.get ⟨n, hn⟩) := by
    rw [List.getElem?_eq_getElem hn]
    rfl
  simp only [todoCompleted, hw, Int.toNat_natCast]
  rw [if_pos (Int.natCast_nonneg n), hget]
  simp only [Except.bind]
  simp only [todoCompleted, hw, Int.toNat_natCast]
  rw [if_pos (Int.natCast_nonneg n), List.getElem?_set_eq_of_lt _ hn]
  simp only [List.set_set, Bool.not_not]
  rw [set_self_of_getElem hget]

/-- Claim C10: for an in-bounds index `n`, `todoCompleted` succeeds and
changes only the `completed` flag of the todo at position `n`: the active
filter, the length of the list, every other position, and the text of the
todo at `n` are unchanged. -/
theorem toggle_frame :
    ∀ (state : AppState) (n : Nat), n < state.todos.length →
      ∃ s2 : AppState,
        todoCompleted (some (n : Int)) state = Except.ok s2 ∧
        s2.todoFilter = state.todoFilter ∧
        s2.todos.length = state.todos.length ∧
        (∀ j : Nat, j ≠ n → s2.todos[j]? = state.todos[j]?) ∧
        (∀ todo : Todo, state.todos[n]? = some todo →
          s2.todos[n]? = some { text := todo.text, completed := !todo.completed }) := by
  intro state n hn
  have hw : ∀ m : Nat, wrapIndex m (n : Int) = (n : Int) := by
    intro m
    simp [wrapIndex]
  have hget : state.todos[n]? = some (state.todos.get ⟨n, hn⟩) := by
    rw [List.getElem?_eq_getElem hn]
    rfl
  refine ⟨{ state with todos := state.todos.set n { state.todos.get ⟨n, hn⟩ with
      completed := !(state.todos.get ⟨n, hn⟩).completed } }, ?_, rfl, by simp, ?_, ?_⟩
  · simp only [todoCompleted, hw, Int.toNat_natCast]
    rw [if_pos (Int.natCast_nonneg n), hget]
  · intro j hj
    exact List.getElem?_set_ne (Ne.symm hj)
  · intro todo htodo
    have heq : todo = state.todos.get ⟨n, hn⟩ := by
      rw [hget] at htodo
      exact (Option.some.inj htodo).symm
    subst heq
    rw [List.getElem?_set_eq_of_lt _ hn]


/-- Witness for C7 at a concrete input: toggling index 1 of `sampleState`
twice gives back `sampleState`. -/
theorem toggle_twice_identity_witness :
    1 < sampleState.todos.length ∧
    (todoCompleted (some 1) sampleState).bind (todoCompleted (some 1))
      = Except.ok sampleState :=
  ⟨by decide, toggle_twice_identity sampleState 1 (by decide)⟩

/-- Witness for C10 at a concrete input: toggling index 0 of `sampleState`
succeeds and satisfies the frame conditions. -/
theorem toggle_frame_witness :
    0 < sampleState.todos.length ∧
    ∃ s2 : AppState,
      todoCompleted (some 0) sampleState = Except.ok s2 ∧
      s2.todoFilter = sampleState.todoFilter ∧
      s2.todos.length = sampleState.todos.length ∧
      (∀ j : Nat, j ≠ 0 → s2.todos[j]? = sampleState.todos[j]?) ∧
      (∀ todo : Todo, sampleState.todos[0]? = some todo →
        s2.todos[0]? = some { text := todo.text, completed := !todo.completed }) :=
  ⟨by decide, toggle_frame sampleState 0 (by decide)⟩
